import Mathlib

/-!
Verification development for the token price update service.

Shallow embedding of:
- TokenPriceUpdateService (src/services/token-price-update.service.ts):
  the tick scheduler with its overlap guard, the per-tick pipeline
  updatePrices, the per-item pipeline updateTokenPrice, and stop().
- KafkaProducerService (src/kafka/kafka-producer.service.ts):
  sendPriceUpdateMessage and sendWithRetry with exponential backoff.
- The Token.price column (src/models/token.entity.ts) together with the
  numeric(28,18) migration (FixPriceDecimalPrecision).

External collaborators (the repository, the price source, the Kafka
broker clients) are modelled as oracles: functions supplied as
parameters that return the result each awaited call would produce.
JavaScript numbers are modelled as rationals except where the claim is
specifically about binary64 representability, where an explicit
mantissa-exponent carrier is used.
-/

namespace TokenPrice

/-- Prices as exchanged inside the service (JS number values, here ℚ). -/
abbrev Price := ℚ

/-- The fields of the Token entity that the update pipeline reads and writes
(id, symbol, price, lastPriceUpdate); timestamps are milliseconds. -/
structure Token where
  id : String
  symbol : String
  price : Price
  lastPriceUpdate : Nat
  deriving Repr, DecidableEq

/-- The Kafka message payload: tokenId, symbol, oldPrice, newPrice, timestamp. -/
structure TokenPriceUpdateMessage where
  tokenId : String
  symbol : String
  oldPrice : Price
  newPrice : Price
  timestamp : Nat
  deriving Repr, DecidableEq

/-- Modelled from the spec: the source of createTokenPriceUpdateMessage
(src/models/token-price-update-message.ts) is not under src/; the spec says the
event carries item id, symbol, old price, new price, and an event timestamp
that defaults to creation time when not supplied.  The caller in
updateTokenPrice supplies no timestamp, so the creation time is used. -/
def createTokenPriceUpdateMessage (tokenId symbol : String) (oldPrice newPrice : Price)
    (timestamp? : Option Nat) (now : Nat) : TokenPriceUpdateMessage :=
  { tokenId := tokenId, symbol := symbol, oldPrice := oldPrice, newPrice := newPrice,
    timestamp := timestamp?.getD now }

/-- Log levels of the Nest logger calls made by the service. -/
inductive LogLevel where
  | log
  | warn
  | error
  deriving Repr, DecidableEq

/-- One logger call: level and rendered message. -/
structure LogEntry where
  level : LogLevel
  message : String
  deriving Repr, DecidableEq

/-- Externally visible calls made by updateTokenPrice for one item:
a publish of the constructed message (kafkaProducer.sendPriceUpdateMessage)
and a save of the mutated token (tokenRepository.save). -/
inductive ItemAction where
  | publish (msg : TokenPriceUpdateMessage)
  | save (t : Token)
  deriving Repr, DecidableEq

/-- Results the awaited collaborator calls return for one item:
priceService.getRandomPriceForToken, kafkaProducer.sendPriceUpdateMessage and
tokenRepository.save either resolve or reject with a reason; now is the clock
value used for the message timestamp and lastPriceUpdate. -/
structure ItemOracle where
  priceResult : Except String Price
  publishResult : Except String Unit
  saveResult : Except String Unit
  now : Nat

/-- Observable outcome of one updateTokenPrice call: the collaborator calls
made in order, the messages constructed, the logger calls made, and the
rejection reason if the returned promise rejected. -/
structure ItemRun where
  actions : List ItemAction
  constructed : List TokenPriceUpdateMessage
  itemLogs : List LogEntry
  rejected? : Option String
  deriving Repr, DecidableEq

/-- Embedding of TokenPriceUpdateService.updateTokenPrice
(src/services/token-price-update.service.ts, lines 96-120):
read oldPrice, await the price source; when the new price differs, construct
the message, await the publish, then mutate the token and await the save,
logging the update on success.  A rejection at any awaited step propagates
and skips the remaining steps. -/
def updateTokenPrice (token : Token) (o : ItemOracle) : ItemRun :=
  match o.priceResult with
  | .error e => { actions := [], constructed := [], itemLogs := [], rejected? := some e }
  | .ok newPrice =>
    if token.price ≠ newPrice then
      let msg := createTokenPriceUpdateMessage token.id
        (if token.symbol = "" then "UNKNOWN" else token.symbol)
        token.price newPrice none o.now
      match o.publishResult with
      | .error e =>
        { actions := [.publish msg], constructed := [msg], itemLogs := [], rejected? := some e }
      | .ok _ =>
        let token' : Token := { token with price := newPrice, lastPriceUpdate := o.now }
        match o.saveResult with
        | .error e =>
          { actions := [.publish msg, .save token'], constructed := [msg], itemLogs := [],
            rejected? := some e }
        | .ok _ =>
          let entry : LogEntry :=
            { level := .log,
              message := "Updated price for " ++ token.symbol ++ ": "
                ++ toString token.price ++ " -> " ++ toString newPrice }
          { actions := [.publish msg, .save token'], constructed := [msg],
            itemLogs := [entry], rejected? := none }
    else { actions := [], constructed := [], itemLogs := [], rejected? := none }

/-- Rejection reasons of the per-item runs, in item order (the rejected
results collected by Promise.allSettled). -/
def failuresOf (runs : List ItemRun) : List String :=
  runs.filterMap (·.rejected?)

/-- Observable outcome of one updatePrices tick body: all per-item runs and
the tick-level logger calls. -/
structure TickRun where
  runs : List ItemRun
  logs : List LogEntry
  deriving Repr, DecidableEq

/-- Embedding of the body of TokenPriceUpdateService.updatePrices
(src/services/token-price-update.service.ts, lines 61-94) after the overlap
guard: load the tokens, run updateTokenPrice on every token
(Promise.allSettled: every item runs, no short-circuit on failure), then if
any results were rejected log one warning with the count and one error line
per failure.  The item index selects that item's oracle.  Item logs are
listed in item order (one interleaving of the concurrent items). -/
def updatePrices (tokens : List Token) (oracle : Nat → ItemOracle) : TickRun :=
  let runs := tokens.enum.map fun p => updateTokenPrice p.2 (oracle p.1)
  let failures := failuresOf runs
  { runs := runs,
    logs :=
      [{ level := .log,
         message := "Updating prices for " ++ toString tokens.length ++ " tokens..." }]
      ++ runs.flatMap (·.itemLogs)
      ++ (if failures.length > 0 then
            [{ level := .warn,
               message := toString failures.length ++ " token(s) failed to update" }]
            ++ failures.map fun reason =>
                { level := .error, message := "Failed to update token: " ++ reason }
          else []) }

/-- Effect of one item run's save calls on the store, modelled as a map from
token id to stored price (each tokenRepository.save writes that token's row). -/
def applyItemSaves (store : String → Price) (r : ItemRun) : String → Price :=
  r.actions.foldl
    (fun st a => match a with
      | .save t => fun x => if x = t.id then t.price else st x
      | .publish _ => st)
    store

/-- Stored prices after a tick: all saves of all item runs applied to the
initial store. -/
def finalStore (tokens : List Token) (oracle : Nat → ItemOracle)
    (init : String → Price) : String → Price :=
  (updatePrices tokens oracle).runs.foldl applyItemSaves init

/-!
Scheduler overlap guard.  JavaScript is single-threaded: the interval
callback's read of isProcessing, the early-return check at the top of
updatePrices and the assignment isProcessing := true all run in one
synchronous segment (there is no await between them), so a firing is one
atomic check-and-begin step.  A tick's end (the finally block of
updatePrices, reached both on normal completion and on a thrown error)
is the other step.  Both the timer firings and the initial out-of-band
call made by start() go through the same guard; only the timer callback
logs a warning when it skips, the initial call's guard returns silently.
-/

/-- Scheduler state: the in-progress flag and, as an observer for the
no-overlap property, the number of tick bodies currently executing. -/
structure SchedulerState where
  isProcessing : Bool
  activeTicks : Nat
  deriving Repr, DecidableEq

/-- Atomic events of the scheduler timeline: a timer firing, the initial
out-of-band firing from start(), and the end of a tick body (threw records
whether the tick's work threw; the finally clause runs either way). -/
inductive SchedulerEvent where
  | timerFire
  | initialFire
  | tickEnd (threw : Bool)
  deriving Repr, DecidableEq

/-- One scheduler step (src/services/token-price-update.service.ts,
lines 38-58 for the firings, lines 61-66 and 91-93 for the guard inside
updatePrices): a firing while a tick is in progress changes nothing and is
not queued (the timer callback logs the skip); otherwise the flag is set
and a tick body begins.  A tick end clears the flag in the finally clause
regardless of whether the body threw. -/
def schedulerStep (s : SchedulerState) (e : SchedulerEvent) : SchedulerState × List LogEntry :=
  match e with
  | .timerFire =>
    if s.isProcessing then
      (s, [{ level := .warn,
             message := "Previous update still in progress, skipping this iteration" }])
    else
      ({ isProcessing := true, activeTicks := s.activeTicks + 1 }, [])
  | .initialFire =>
    if s.isProcessing then (s, [])
    else ({ isProcessing := true, activeTicks := s.activeTicks + 1 }, [])
  | .tickEnd _ =>
    ({ isProcessing := false, activeTicks := s.activeTicks - 1 }, [])

/-- Run a sequence of scheduler events from a given state. -/
def schedulerRunFrom (s : SchedulerState) (es : List SchedulerEvent) : SchedulerState :=
  es.foldl (fun s e => (schedulerStep s e).1) s

/-- The scheduler's initial state: no tick in progress. -/
def schedulerInit : SchedulerState := { isProcessing := false, activeTicks := 0 }

/-- Run a sequence of scheduler events from the initial state. -/
def schedulerRun (es : List SchedulerEvent) : SchedulerState :=
  schedulerRunFrom schedulerInit es

/-- The overlap-guard invariant: the in-progress flag tracks whether a tick
body is executing, and at most one is. -/
def SchedulerInv (s : SchedulerState) : Prop :=
  s.activeTicks ≤ 1 ∧ (s.isProcessing = true ↔ s.activeTicks = 1)

/-!
Kafka producer: sendPriceUpdateMessage and sendWithRetry
(src/kafka/kafka-producer.service.ts).  The broker is an oracle mapping the
attempt number to the result of producer.send; a failure carries the error
message used in the logs and the terminal error.
-/

/-- maxRetries of KafkaProducerService. -/
def kafkaMaxRetries : Nat := 3

/-- retryDelay of KafkaProducerService, in milliseconds. -/
def kafkaRetryDelay : Nat := 1000

deriving instance DecidableEq for Except

/-- Observable outcome of one sendWithRetry call: the attempt numbers at
which producer.send was invoked, the backoff delays slept between attempts
(in order, milliseconds), and the overall result. -/
structure RetryRun where
  attempts : List Nat
  delays : List Nat
  result : Except String Unit
  deriving Repr, DecidableEq

/-- Embedding of KafkaProducerService.sendWithRetry
(src/kafka/kafka-producer.service.ts, lines 59-86), recursion on the number
of retries still allowed (remaining = maxRetries - attempt, so remaining > 0
exactly when attempt < maxRetries): try the send; on failure either sleep
retryDelay * 2 ^ (attempt - 1) ms and retry with attempt + 1, or, with no
retries left, fail with the terminal error naming maxRetries attempts. -/
def sendWithRetryAux (send : Nat → Except String Unit) (attempt : Nat) :
    Nat → RetryRun
  | 0 =>
    match send attempt with
    | .ok _ => { attempts := [attempt], delays := [], result := .ok () }
    | .error msg =>
      { attempts := [attempt], delays := [],
        result := .error ("Failed to send message after "
          ++ toString kafkaMaxRetries ++ " attempts: " ++ msg) }
  | r + 1 =>
    match send attempt with
    | .ok _ => { attempts := [attempt], delays := [], result := .ok () }
    | .error _ =>
      let delay := kafkaRetryDelay * 2 ^ (attempt - 1)
      let rest := sendWithRetryAux send (attempt + 1) r
      { attempts := attempt :: rest.attempts, delays := delay :: rest.delays,
        result := rest.result }

/-- sendWithRetry as called by sendPriceUpdateMessage: first attempt number 1,
maxRetries - 1 retries allowed after it. -/
def sendWithRetry (send : Nat → Except String Unit) : RetryRun :=
  sendWithRetryAux send 1 (kafkaMaxRetries - 1)

/-- Embedding of KafkaProducerService.sendPriceUpdateMessage
(src/kafka/kafka-producer.service.ts, lines 45-57): when the client is not
connected, throw immediately with no send attempt; otherwise validate the
message, serialize it and delegate to sendWithRetry.  valid models the Zod
schema parse (src/models/token-price-update-message.ts is not under src/;
a failed parse throws before any send attempt). -/
def sendPriceUpdateMessage (isConnected : Bool) (valid : Bool)
    (send : Nat → Except String Unit) : RetryRun :=
  if isConnected = false then
    { attempts := [], delays := [], result := .error "Kafka producer is not connected" }
  else if valid = false then
    { attempts := [], delays := [], result := .error "message validation failed" }
  else
    sendWithRetry send

/-!
stop() and onModuleDestroy (src/services/token-price-update.service.ts,
lines 122-161).  The in-flight tick is an oracle proc with proc k the value
the k-th read of isProcessing observes (the read before the wait loop and
the first loop-condition read happen in the same synchronous segment, so
both observe proc 0).
-/

/-- The wait loop's hard cap: maxAttempts = 30 (one-second polls, 30 s). -/
def stopMaxAttempts : Nat := 30

/-- Externally visible steps of one stop() call, in order. -/
inductive StopAction where
  | warnNotRunning
  | logStopping
  | setNotRunning
  | disarmTimer
  | logWaiting
  | sleep (ms : Nat)
  | warnForced
  | logStopped
  deriving Repr, DecidableEq

/-- Number of one-second sleeps the wait loop performs: starting from
attempt index k with fuel loop iterations allowed, keep sleeping while
isProcessing is observed true (the loop also rechecks attempts < 30, which
is the fuel). -/
def waitSleeps (proc : Nat → Bool) (k : Nat) : Nat → Nat
  | 0 => k
  | fuel + 1 => if proc k then waitSleeps proc (k + 1) fuel else k

/-- Embedding of TokenPriceUpdateService.stop
(src/services/token-price-update.service.ts, lines 122-153): warn and return
when not running; otherwise log, clear isRunning, disarm the timer, then if a
tick is in flight poll isProcessing once per second up to 30 times, warn
about the forced shutdown when it is still in flight at the deadline, and
log completion. -/
def stopTrace (isRunning : Bool) (proc : Nat → Bool) : List StopAction :=
  if isRunning = false then [.warnNotRunning]
  else
    let wait : List StopAction :=
      if proc 0 then
        let n := waitSleeps proc 0 stopMaxAttempts
        [.logWaiting] ++ List.replicate n (.sleep 1000)
          ++ (if proc n then [.warnForced] else [])
      else []
    [.logStopping, .setNotRunning, .disarmTimer] ++ wait ++ [.logStopped]

/-- Number of sleep actions in a stop trace. -/
def sleepCount : List StopAction → Nat
  | [] => 0
  | a :: t => (match a with | .sleep _ => 1 | _ => 0) + sleepCount t

/-- Milliseconds slept during a stop trace. -/
def sleptMs : List StopAction → Nat
  | [] => 0
  | a :: t => (match a with | .sleep ms => ms | _ => 0) + sleptMs t

/-- Embedding of TokenPriceUpdateService.onModuleDestroy
(src/services/token-price-update.service.ts, lines 155-161): promises are
named by numbers; when no shutdown promise is stored yet the call invokes
stop() and stores its fresh promise, otherwise it leaves the stored promise
in place; every caller awaits the stored promise.  Returns the new stored
promise, the promise this caller awaits, and whether this call invoked
stop().  The check and the assignment are one synchronous segment, so the
step is atomic. -/
def onModuleDestroyStep (shutdownPromise : Option Nat) (fresh : Nat) :
    Option Nat × Nat × Bool :=
  match shutdownPromise with
  | none => (some fresh, fresh, true)
  | some p => (some p, p, false)

/-!
Token.price round-trip (src/models/token.entity.ts, lines 78-88, and the
FixPriceDecimalPrecision migration).  The column is numeric(28,18): it stores
any rational with denominator 10 ^ 18 exactly, and the driver hands the
column value to the entity transformer as a decimal string.  The from
transformer is parseFloat, whose result is a JavaScript number: a finite
IEEE-754 binary64 value, i.e. a rational mantissa * 2 ^ exponent with
|mantissa| < 2 ^ 53 and -1074 ≤ exponent ≤ 971.  Which such value parseFloat
picks is left abstract: the round-trip failure below holds for every choice.
-/

/-- A finite JavaScript number (IEEE-754 binary64). -/
structure JsNumber where
  mantissa : ℤ
  exponent : ℤ
  mantissa_lt : mantissa.natAbs < 2 ^ 53
  exponent_lb : -1074 ≤ exponent
  exponent_ub : exponent ≤ 971

/-- The rational value of a JavaScript number. -/
def JsNumber.toRat (x : JsNumber) : ℚ :=
  (x.mantissa : ℚ) * 2 ^ x.exponent

/-- The value loaded back through the Token.price column transformer
(src/models/token.entity.ts, lines 82-86): the numeric(28,18) column stores
the written value exactly (for values in its range), and the from
transformer applies parseFloat to the rendered decimal string, producing a
JavaScript number.  parse is the abstract parseFloat. -/
def loadedPrice (parse : ℚ → JsNumber) (stored : ℚ) : ℚ :=
  (parse stored).toRat

/-! Sample tokens and oracles used by the witness and counterexample
theorems. -/

/-- A tracked token with stored price 1. -/
def sampleToken : Token := { id := "t1", symbol := "TKN", price := 1, lastPriceUpdate := 0 }

/-- Price source returns the stored price again; publish and save succeed. -/
def samePriceOracle : ItemOracle :=
  { priceResult := .ok 1, publishResult := .ok (), saveResult := .ok (), now := 7 }

/-- Price source returns a changed price; publish and save succeed. -/
def changedOracle : ItemOracle :=
  { priceResult := .ok 2, publishResult := .ok (), saveResult := .ok (), now := 7 }

/-- Price source returns a changed price; the publish rejects. -/
def publishFailOracle : ItemOracle :=
  { priceResult := .ok 2, publishResult := .error "kafka down", saveResult := .ok (), now := 7 }

/-- Price source returns a changed price; publish succeeds, the save rejects. -/
def persistFailOracle : ItemOracle :=
  { priceResult := .ok 2, publishResult := .ok (), saveResult := .error "boom", now := 7 }

/-- The price source itself rejects, with the same reason string as the
failing save of persistFailOracle. -/
def sourceFailOracle : ItemOracle :=
  { priceResult := .error "boom", publishResult := .ok (), saveResult := .ok (), now := 7 }

/-- A broker that fails attempts 1 and 2 and succeeds from attempt 3 on. -/
def failTwice : Nat → Except String Unit := fun n =>
  if n ≤ 2 then .error "broker down" else .ok ()

/-- A broker whose send always fails. -/
def alwaysFail : Nat → Except String Unit := fun _ => .error "broker down"

/-- Three tracked tokens for the failure-isolation run. -/
def tokenA : Token := { id := "A", symbol := "AAA", price := 10, lastPriceUpdate := 0 }

/-- See tokenA. -/
def tokenB : Token := { id := "B", symbol := "BBB", price := 20, lastPriceUpdate := 0 }

/-- See tokenA. -/
def tokenC : Token := { id := "C", symbol := "CCC", price := 30, lastPriceUpdate := 0 }

/-- Oracles for the failure-isolation run: every price changes, item B's
publish (index 1) always rejects, items A and C succeed. -/
def isolationOracle : Nat → ItemOracle := fun i =>
  if i = 1 then
    { priceResult := .ok 21, publishResult := .error "kafka down", saveResult := .ok (), now := 9 }
  else if i = 0 then
    { priceResult := .ok 11, publishResult := .ok (), saveResult := .ok (), now := 9 }
  else
    { priceResult := .ok 31, publishResult := .ok (), saveResult := .ok (), now := 9 }

/-- Initial stored prices for the failure-isolation run. -/
def initStore3 : String → Price := fun id =>
  if id = "A" then 10 else if id = "B" then 20 else 30

/-!
Theorems.
-/

/-- The three possible call sequences of one updateTokenPrice run: nothing
(price source rejected or price unchanged), a publish that rejected, or a
publish that resolved followed by a save. -/
theorem updateTokenPrice_shape (token : Token) (o : ItemOracle) :
    ((updateTokenPrice token o).actions = [] ∧ (updateTokenPrice token o).constructed = []) ∨
    (∃ msg, (updateTokenPrice token o).actions = [.publish msg] ∧
      (updateTokenPrice token o).constructed = [msg] ∧ ∃ e, o.publishResult = .error e) ∨
    (∃ msg t', (updateTokenPrice token o).actions = [.publish msg, .save t'] ∧
      (updateTokenPrice token o).constructed = [msg] ∧ o.publishResult = .ok ()) := by
  unfold updateTokenPrice
  cases hp : o.priceResult with
  | error e => simp
  | ok newPrice =>
    by_cases heq : token.price = newPrice
    · simp [heq]
    · cases hpub : o.publishResult with
      | error e => simp [heq, hpub]
      | ok u =>
        cases u
        cases hsv : o.saveResult with
        | error e => simp [heq, hpub, hsv]
        | ok u => cases u; simp [heq, hpub, hsv]

/-- A run whose actions hold no save leaves the store untouched. -/
theorem applyItemSaves_of_actions_nil {r : ItemRun} (h : r.actions = []) :
    ∀ store, applyItemSaves store r = store := by
  intro store; simp [applyItemSaves, h]

/-- A run whose only action is a publish leaves the store untouched. -/
theorem applyItemSaves_of_actions_publish {r : ItemRun} {msg : TokenPriceUpdateMessage}
    (h : r.actions = [.publish msg]) :
    ∀ store, applyItemSaves store r = store := by
  intro store; simp [applyItemSaves, h]

/-- C2: for every item whose price changed, the publish call completes
successfully strictly before the store save for that item is invoked;
and when the publish fails terminally, no save is invoked for that item
and the item's stored price is left unchanged. -/
theorem publishBeforePersist (token : Token) (o : ItemOracle) :
    (∀ (i : Nat) (t : Token),
        (updateTokenPrice token o).actions[i]? = some (ItemAction.save t) →
        o.publishResult = .ok () ∧
        ∃ (j : Nat) (msg : TokenPriceUpdateMessage), j < i ∧
          (updateTokenPrice token o).actions[j]? = some (ItemAction.publish msg)) ∧
    (∀ e, o.publishResult = .error e →
        (∀ t, ItemAction.save t ∉ (updateTokenPrice token o).actions) ∧
        ∀ store, applyItemSaves store (updateTokenPrice token o) = store) := by
  rcases updateTokenPrice_shape token o with ⟨ha, _⟩ | ⟨msg, ha, _, e, hpub⟩ |
      ⟨msg, t', ha, _, hpub⟩
  · constructor
    · intro i t hget; simp [ha] at hget
    · intro e _
      exact ⟨fun t hm => by simp [ha] at hm, applyItemSaves_of_actions_nil ha⟩
  · constructor
    · intro i t hget
      rw [ha] at hget
      cases i with
      | zero => simp at hget
      | succ n => simp at hget
    · intro e2 _
      constructor
      · intro t hm; simp [ha] at hm
      · exact applyItemSaves_of_actions_publish ha
  · constructor
    · intro i t hget
      rw [ha] at hget
      cases i with
      | zero => simp at hget
      | succ n =>
        cases n with
        | zero => exact ⟨hpub, 0, msg, Nat.zero_lt_one, by simp [ha]⟩
        | succ m => simp at hget
    · intro e he; rw [hpub] at he; exact absurd he (by simp)

/-- Witness for publishBeforePersist: with the changed-price oracle the save
sits at index 1 behind a successful publish at index 0, and with the
failing-publish oracle no save appears in the run's actions. -/
theorem publishBeforePersist_witness :
    (changedOracle.publishResult = Except.ok () ∧
      ∃ j msg, j < 1 ∧
        (updateTokenPrice sampleToken changedOracle).actions[j]? =
          some (ItemAction.publish msg)) ∧
    (∀ t, ItemAction.save t ∉ (updateTokenPrice sampleToken publishFailOracle).actions) := by
  constructor
  · exact (publishBeforePersist sampleToken changedOracle).1 1
      { id := "t1", symbol := "TKN", price := 2, lastPriceUpdate := 7 } (by decide)
  · exact ((publishBeforePersist sampleToken publishFailOracle).2 "kafka down" rfl).1

/-- C3: when the freshly obtained price equals the stored one, no message is
constructed, no publish and no save are invoked; and every message that is
constructed carries oldPrice ≠ newPrice. -/
theorem noopSuppression :
    (∀ token o p, o.priceResult = .ok p → p = token.price →
        (updateTokenPrice token o).constructed = [] ∧
        (updateTokenPrice token o).actions = []) ∧
    (∀ token o msg, msg ∈ (updateTokenPrice token o).constructed →
        msg.oldPrice ≠ msg.newPrice) := by
  constructor
  · intro token o p hp hpe
    unfold updateTokenPrice
    rw [hp]
    simp [hpe]
  · intro token o msg hm
    obtain ⟨pr, pub, sv, n⟩ := o
    cases pr with
    | error e => simp [updateTokenPrice] at hm
    | ok newPrice =>
      by_cases heq : token.price = newPrice
      · simp [updateTokenPrice, heq] at hm
      · cases pub with
        | error e =>
          simp [updateTokenPrice, heq, createTokenPriceUpdateMessage] at hm
          subst hm
          simpa using heq
        | ok u =>
          cases u
          cases sv with
          | error e =>
            simp [updateTokenPrice, heq, createTokenPriceUpdateMessage] at hm
            subst hm
            simpa using heq
          | ok u =>
            cases u
            simp [updateTokenPrice, heq, createTokenPriceUpdateMessage] at hm
            subst hm
            simpa using heq

/-- Witness for noopSuppression: the equal-price oracle yields no message
and no calls, and the changed-price oracle's constructed message has
oldPrice 1 ≠ newPrice 2. -/
theorem noopSuppression_witness :
    ((updateTokenPrice sampleToken samePriceOracle).constructed = [] ∧
      (updateTokenPrice sampleToken samePriceOracle).actions = []) ∧
    (createTokenPriceUpdateMessage "t1" "TKN" 1 2 none 7).oldPrice ≠
      (createTokenPriceUpdateMessage "t1" "TKN" 1 2 none 7).newPrice := by
  constructor
  · exact noopSuppression.1 sampleToken samePriceOracle 1 rfl rfl
  · exact noopSuppression.2 sampleToken changedOracle _ (by decide)

/-- The overlap-guard invariant holds in the initial state. -/
theorem schedulerInit_inv : SchedulerInv schedulerInit := by
  constructor <;> simp [schedulerInit]

/-- Every scheduler step preserves the overlap-guard invariant. -/
theorem schedulerStep_inv (s : SchedulerState) (e : SchedulerEvent)
    (h : SchedulerInv s) : SchedulerInv (schedulerStep s e).1 := by
  obtain ⟨p, n⟩ := s
  obtain ⟨h1, h2⟩ := h
  have h1' : n ≤ 1 := h1
  have h2' : p = true ↔ n = 1 := h2
  cases e with
  | timerFire =>
    cases p with
    | true => simpa [schedulerStep] using ⟨h1, h2⟩
    | false =>
      have hn : n = 0 := by
        have hne : ¬(n = 1) := fun h => by simp [h] at h2'
        omega
      simp [schedulerStep, SchedulerInv, hn]
  | initialFire =>
    cases p with
    | true => simpa [schedulerStep] using ⟨h1, h2⟩
    | false =>
      have hn : n = 0 := by
        have hne : ¬(n = 1) := fun h => by simp [h] at h2'
        omega
      simp [schedulerStep, SchedulerInv, hn]
  | tickEnd threw =>
    simp only [schedulerStep, SchedulerInv]
    constructor
    · show n - 1 ≤ 1
      omega
    · simp only [Bool.false_eq_true, false_iff]
      show ¬(n - 1 = 1)
      omega

/-- Running any event sequence from an invariant state keeps the invariant. -/
theorem schedulerRunFrom_inv (es : List SchedulerEvent) (s : SchedulerState)
    (h : SchedulerInv s) : SchedulerInv (schedulerRunFrom s es) := by
  induction es generalizing s with
  | nil => simpa [schedulerRunFrom] using h
  | cons e es ih =>
    have : schedulerRunFrom s (e :: es) = schedulerRunFrom (schedulerStep s e).1 es := by
      simp [schedulerRunFrom]
    rw [this]
    exact ih _ (schedulerStep_inv s e h)

/-- C1: over every sequence of timer firings, initial out-of-band firings
and tick ends, at most one tick body is active at any instant; a firing that
arrives while a tick is in progress leaves the scheduler unchanged (skipped,
not queued); the in-progress flag is cleared at tick end whether or not the
tick's work threw; and a firing arriving after a (possibly failed) tick end
begins a new tick. -/
theorem noOverlap (es : List SchedulerEvent) (s : SchedulerState) (b : Bool)
    (hbusy : s.isProcessing = true) :
    (schedulerRun es).activeTicks ≤ 1 ∧
    (schedulerStep s .timerFire).1 = s ∧
    (schedulerStep s .initialFire).1 = s ∧
    (schedulerStep s (.tickEnd b)).1.isProcessing = false ∧
    (schedulerStep (schedulerStep s (.tickEnd b)).1 .timerFire).1.isProcessing = true := by
  refine ⟨(schedulerRunFrom_inv es schedulerInit schedulerInit_inv).1, ?_, ?_, ?_, ?_⟩
  · simp [schedulerStep, hbusy]
  · simp [schedulerStep, hbusy]
  · simp [schedulerStep]
  · simp [schedulerStep]

/-- Witness for noOverlap at a concrete event sequence and busy state. -/
theorem noOverlap_witness :
    (schedulerRun
        [SchedulerEvent.timerFire, SchedulerEvent.timerFire,
         SchedulerEvent.tickEnd true, SchedulerEvent.initialFire]).activeTicks ≤ 1 ∧
    (schedulerStep ⟨true, 1⟩ .timerFire).1 = ⟨true, 1⟩ ∧
    (schedulerStep ⟨true, 1⟩ .initialFire).1 = ⟨true, 1⟩ ∧
    (schedulerStep ⟨true, 1⟩ (.tickEnd true)).1.isProcessing = false ∧
    (schedulerStep (schedulerStep ⟨true, 1⟩ (.tickEnd true)).1 .timerFire).1.isProcessing =
      true :=
  noOverlap
    [SchedulerEvent.timerFire, SchedulerEvent.timerFire,
     SchedulerEvent.tickEnd true, SchedulerEvent.initialFire] ⟨true, 1⟩ true rfl

/-- sleepCount distributes over append. -/
theorem sleepCount_append (l1 l2 : List StopAction) :
    sleepCount (l1 ++ l2) = sleepCount l1 + sleepCount l2 := by
  induction l1 with
  | nil => simp [sleepCount]
  | cons a t ih => simp [sleepCount, ih]; omega

/-- sleepCount of a run of sleeps. -/
theorem sleepCount_replicate (n ms : Nat) :
    sleepCount (List.replicate n (StopAction.sleep ms)) = n := by
  induction n with
  | zero => simp [sleepCount]
  | succ m ih =>
    simp [List.replicate, sleepCount, ih]
    omega

/-- sleptMs distributes over append. -/
theorem sleptMs_append (l1 l2 : List StopAction) :
    sleptMs (l1 ++ l2) = sleptMs l1 + sleptMs l2 := by
  induction l1 with
  | nil => simp [sleptMs]
  | cons a t ih => simp [sleptMs, ih]; omega

/-- sleptMs of a run of sleeps. -/
theorem sleptMs_replicate (n ms : Nat) :
    sleptMs (List.replicate n (StopAction.sleep ms)) = n * ms := by
  induction n with
  | zero => simp [sleptMs]
  | succ m ih => simp [List.replicate, sleptMs, ih]; ring

/-- The wait loop performs at most fuel additional polls. -/
theorem waitSleeps_le (proc : Nat → Bool) :
    ∀ (fuel k : Nat), waitSleeps proc k fuel ≤ k + fuel := by
  intro fuel
  induction fuel with
  | zero => intro k; simp [waitSleeps]
  | succ f ih =>
    intro k
    cases hpk : proc k with
    | true =>
      have := ih (k + 1)
      simp only [waitSleeps, hpk, if_true]
      omega
    | false =>
      simp only [waitSleeps, hpk, Bool.false_eq_true, if_false]
      omega

/-- With a tick that never finishes, the wait loop exhausts its fuel. -/
theorem waitSleeps_of_true (proc : Nat → Bool) (h : ∀ k, proc k = true) :
    ∀ (fuel k : Nat), waitSleeps proc k fuel = k + fuel := by
  intro fuel
  induction fuel with
  | zero => intro k; simp [waitSleeps]
  | succ f ih =>
    intro k
    simp only [waitSleeps, h k, if_true, ih (k + 1)]
    omega

/-- Closed form of the stop trace for a tick that never finishes. -/
theorem stopTrace_stuck (proc : Nat → Bool) (h : ∀ k, proc k = true) :
    stopTrace true proc =
      [.logStopping, .setNotRunning, .disarmTimer, .logWaiting]
        ++ List.replicate 30 (StopAction.sleep 1000) ++ [.warnForced, .logStopped] := by
  have h30 : waitSleeps proc 0 stopMaxAttempts = 30 := by
    rw [waitSleeps_of_true proc h]
    rfl
  simp [stopTrace, h 0, h30, h 30]

/-- C7: stop() disarms the timer before any waiting, polls at one-second
granularity at most 30 times (≤ 30 s waited in total) whatever the in-flight
tick does, always reaches the final stopped transition; and with a tick
stuck beyond the deadline it performs exactly the 30 polls, logs the
forced-shutdown warning, and still ends stopped. -/
theorem boundedShutdown (proc : Nat → Bool) (hstuck : ∀ k, proc k = true) :
    (∀ q : Nat → Bool, (stopTrace true q).take 3 =
      [StopAction.logStopping, StopAction.setNotRunning, StopAction.disarmTimer]) ∧
    (∀ q : Nat → Bool, sleepCount (stopTrace true q) ≤ 30) ∧
    (∀ q : Nat → Bool, sleptMs (stopTrace true q) ≤ 30000) ∧
    (∀ q : Nat → Bool, StopAction.logStopped ∈ stopTrace true q) ∧
    sleepCount (stopTrace true proc) = 30 ∧
    StopAction.warnForced ∈ stopTrace true proc ∧
    (stopTrace true proc).getLast? = some StopAction.logStopped := by
  have hcount : ∀ q : Nat → Bool, sleepCount (stopTrace true q) =
      if q 0 then waitSleeps q 0 stopMaxAttempts else 0 := by
    intro q
    by_cases h0 : q 0
    · by_cases hn : q (waitSleeps q 0 stopMaxAttempts) <;>
        simp [stopTrace, h0, hn, sleepCount_append, sleepCount_replicate, sleepCount]
    · simp [stopTrace, h0, sleepCount_append, sleepCount]
  have hms : ∀ q : Nat → Bool, sleptMs (stopTrace true q) =
      1000 * sleepCount (stopTrace true q) := by
    intro q
    by_cases h0 : q 0
    · by_cases hn : q (waitSleeps q 0 stopMaxAttempts) <;>
        simp [stopTrace, h0, hn, sleptMs_append, sleptMs_replicate, sleptMs,
          sleepCount_append, sleepCount_replicate, sleepCount] <;> ring
    · simp [stopTrace, h0, sleptMs_append, sleptMs, sleepCount]
  have hbound : ∀ q : Nat → Bool, sleepCount (stopTrace true q) ≤ 30 := by
    intro q
    rw [hcount q]
    by_cases h0 : q 0
    · simpa [h0] using waitSleeps_le q stopMaxAttempts 0
    · simp [h0]
  refine ⟨?_, hbound, ?_, ?_, ?_, ?_, ?_⟩
  · intro q; simp [stopTrace]
  · intro q
    rw [hms q]
    calc 1000 * sleepCount (stopTrace true q) ≤ 1000 * 30 :=
          Nat.mul_le_mul_left 1000 (hbound q)
      _ = 30000 := by norm_num
  · intro q; simp [stopTrace]
  · rw [hcount proc]
    simp [hstuck 0, waitSleeps_of_true proc hstuck, stopMaxAttempts]
  · rw [stopTrace_stuck proc hstuck]; decide
  · rw [stopTrace_stuck proc hstuck]; decide

/-- Witness for boundedShutdown: the everywhere-true in-flight flag. -/
theorem boundedShutdown_witness :
    sleepCount (stopTrace true (fun _ => true)) = 30 ∧
    StopAction.warnForced ∈ stopTrace true (fun _ => true) ∧
    (stopTrace true (fun _ => true)).getLast? = some StopAction.logStopped ∧
    sleptMs (stopTrace true (fun _ => true)) ≤ 30000 := by
  have h := boundedShutdown (fun _ => true) (fun _ => rfl)
  exact ⟨h.2.2.2.2.1, h.2.2.2.2.2.1, h.2.2.2.2.2.2, h.2.2.1 (fun _ => true)⟩

/-- Counterexample to C8 as stated for two direct concurrent stop() calls:
caller 1 enters stop() while running with a stuck in-flight tick; its
synchronous prefix sets isRunning to false before its first await, so
caller 2's stop() executes with isRunning = false and returns at once with
only the not-running warning — zero polls, no stopped transition observed —
while caller 1 is still inside its 30-poll wait.  The second caller
therefore does not await the first caller's wait outcome. -/
theorem stopConcurrentCounterexample :
    stopTrace false (fun _ => true) = [StopAction.warnNotRunning] ∧
    sleepCount (stopTrace false (fun _ => true)) = 0 ∧
    sleepCount (stopTrace true (fun _ => true)) = 30 ∧
    StopAction.logStopped ∉ stopTrace false (fun _ => true) := by decide

/-- C8 amended: idempotent concurrent shutdown holds for onModuleDestroy,
which stores the promise of the single stop() call: the first caller invokes
stop() and stores its promise, a second caller invokes nothing and awaits
the very same stored promise, so exactly one wait sequence runs and both
callers observe the same completion; a second direct concurrent stop() call
instead returns immediately with a warning (see the counterexample). -/
theorem idempotentDestroy (f1 f2 : Nat) :
    (onModuleDestroyStep none f1).2.1 = f1 ∧
    (onModuleDestroyStep none f1).2.2 = true ∧
    (onModuleDestroyStep (onModuleDestroyStep none f1).1 f2).2.1 = f1 ∧
    (onModuleDestroyStep (onModuleDestroyStep none f1).1 f2).2.2 = false ∧
    (onModuleDestroyStep (onModuleDestroyStep none f1).1 f2).1 = some f1 := by
  simp [onModuleDestroyStep]

/-- Position i of the backoff delay list always holds
retryDelay * 2 ^ (first attempt - 1 + i). -/
theorem sendWithRetryAux_delays (send : Nat → Except String Unit) :
    ∀ (fuel a i : Nat), 1 ≤ a →
      i < (sendWithRetryAux send a fuel).delays.length →
      (sendWithRetryAux send a fuel).delays[i]? =
        some (kafkaRetryDelay * 2 ^ (a - 1 + i)) := by
  intro fuel
  induction fuel with
  | zero =>
    intro a i ha hi
    cases hs : send a with
    | ok u => simp [sendWithRetryAux, hs] at hi
    | error e => simp [sendWithRetryAux, hs] at hi
  | succ f ih =>
    intro a i ha hi
    cases hs : send a with
    | ok u => simp [sendWithRetryAux, hs] at hi
    | error e =>
      simp only [sendWithRetryAux, hs] at hi ⊢
      cases i with
      | zero => simp
      | succ j =>
        simp only [List.length_cons, Nat.add_lt_add_iff_right] at hi
        have hrec := ih (a + 1) j (by omega) hi
        simp only [List.getElem?_cons_succ]
        rw [show a - 1 + (j + 1) = a + 1 - 1 + j by omega]
        exact hrec

/-- C4: exponential backoff — the delay inserted before attempt n + 1 is
1000 ms * 2 ^ (n - 1) for every broker; and for the broker failing attempts
1 and 2 and succeeding on attempt 3, exactly three send attempts are made,
the delays are 1000 ms then 2000 ms, in total 3000 ms waited, and the call
succeeds. -/
theorem backoffSchedule :
    (sendWithRetry failTwice).attempts = [1, 2, 3] ∧
    (sendWithRetry failTwice).delays = [1000, 2000] ∧
    (sendWithRetry failTwice).result = .ok () ∧
    3000 ≤ (sendWithRetry failTwice).delays.sum ∧
    (∀ (send : Nat → Except String Unit) (i : Nat),
        i < (sendWithRetry send).delays.length →
        (sendWithRetry send).delays[i]? = some (1000 * 2 ^ i)) := by
  refine ⟨by decide, by decide, by decide, by decide, ?_⟩
  intro send i hi
  have h := sendWithRetryAux_delays send (kafkaMaxRetries - 1) 1 i (le_refl 1) hi
  simpa [sendWithRetry, kafkaRetryDelay] using h

/-- Witness for backoffSchedule: the first delay of the fail-twice run. -/
theorem backoffSchedule_witness :
    0 < (sendWithRetry failTwice).delays.length ∧
    (sendWithRetry failTwice).delays[0]? = some (1000 * 2 ^ 0) :=
  ⟨by decide, backoffSchedule.2.2.2.2 failTwice 0 (by decide)⟩

/-- C5: with an always-failing broker, a connected publish makes exactly the
three send attempts (never a fourth) and then fails with the terminal error
naming the three attempts made; a publish while the client is not connected
fails immediately with no send attempt and no backoff delay. -/
theorem retryCeiling :
    (∀ send : Nat → Except String Unit, (∀ n, ∃ e, send n = .error e) →
        (sendPriceUpdateMessage true true send).attempts = [1, 2, 3] ∧
        ∃ msg, (sendPriceUpdateMessage true true send).result =
          .error ("Failed to send message after 3 attempts: " ++ msg)) ∧
    (∀ send : Nat → Except String Unit,
        sendPriceUpdateMessage false true send =
          { attempts := [], delays := [],
            result := .error "Kafka producer is not connected" }) := by
  constructor
  · intro send h
    obtain ⟨e1, h1⟩ := h 1
    obtain ⟨e2, h2⟩ := h 2
    obtain ⟨e3, h3⟩ := h 3
    have hrun : sendPriceUpdateMessage true true send =
        { attempts := [1, 2, 3], delays := [1000, 2000],
          result := .error ("Failed to send message after 3 attempts: " ++ e3) } := by
      show sendWithRetryAux send 1 (kafkaMaxRetries - 1) = _
      show sendWithRetryAux send 1 2 = _
      rw [show (2 : Nat) = 1 + 1 from rfl]
      simp [sendWithRetryAux, h1, h2, h3, kafkaRetryDelay, kafkaMaxRetries]
      rfl
    exact ⟨by rw [hrun], e3, by rw [hrun]⟩
  · intro send
    rfl

/-- Witness for retryCeiling: the always-failing broker, connected and not. -/
theorem retryCeiling_witness :
    (sendPriceUpdateMessage true true alwaysFail).attempts = [1, 2, 3] ∧
    (sendPriceUpdateMessage false true alwaysFail).attempts = [] := by
  refine ⟨(retryCeiling.1 alwaysFail fun n => ⟨"broker down", rfl⟩).1, ?_⟩
  rw [retryCeiling.2 alwaysFail]

/-- Every item-level log entry of updateTokenPrice is logger.log level
(only the per-failure summary lines of updatePrices use warn and error). -/
theorem itemLogs_levels (token : Token) (o : ItemOracle) :
    ∀ l ∈ (updateTokenPrice token o).itemLogs, l.level = LogLevel.log := by
  intro l hl
  obtain ⟨pr, pub, sv, n⟩ := o
  cases pr with
  | error e => simp [updateTokenPrice] at hl
  | ok newPrice =>
    by_cases heq : token.price = newPrice
    · simp [updateTokenPrice, heq] at hl
    · cases pub with
      | error e => simp [updateTokenPrice, heq] at hl
      | ok u =>
        cases u
        cases sv with
        | error e => simp [updateTokenPrice, heq] at hl
        | ok u =>
          cases u
          simp [updateTokenPrice, heq] at hl
          rw [hl]

/-- The warn-level log entries of a tick: none when no item failed, exactly
the one count line otherwise. -/
theorem updatePrices_warnCount (tokens : List Token) (oracle : Nat → ItemOracle) :
    ((updatePrices tokens oracle).logs.filter fun l => l.level = LogLevel.warn).length =
      if failuresOf (updatePrices tokens oracle).runs = [] then 0 else 1 := by
  have hflat : ((tokens.enum.map fun p => updateTokenPrice p.2 (oracle p.1)).flatMap
      (fun r => r.itemLogs)).filter (fun l => decide (l.level = LogLevel.warn)) = [] := by
    rw [List.filter_eq_nil_iff]
    intro a ha
    rw [List.mem_flatMap] at ha
    obtain ⟨r, hr, har⟩ := ha
    obtain ⟨p, hp, rfl⟩ := List.mem_map.mp hr
    simp [itemLogs_levels p.2 (oracle p.1) a har]
  have hmap : ∀ failures : List String,
      ((failures.map fun reason =>
          ({ level := .error, message := "Failed to update token: " ++ reason } : LogEntry)).filter
        (fun l => decide (l.level = LogLevel.warn))) = [] := by
    intro failures
    rw [List.filter_eq_nil_iff]
    intro a ha
    obtain ⟨reason, hr, rfl⟩ := List.mem_map.mp ha
    simp
  simp only [updatePrices, List.filter_append, List.length_append, hflat]
  by_cases hfl : failuresOf (tokens.enum.map fun p => updateTokenPrice p.2 (oracle p.1)) = []
  · simp [hfl, List.filter]
  · have hlen : 0 < (failuresOf
        (tokens.enum.map fun p => updateTokenPrice p.2 (oracle p.1))).length :=
      List.length_pos.mpr hfl
    simp [hfl, hlen, List.filter, hmap]

/-- The error-level log entries of a tick are exactly one uniform
"Failed to update token" line per rejected item, whatever step rejected. -/
theorem updatePrices_errorLogs (tokens : List Token) (oracle : Nat → ItemOracle) :
    ((updatePrices tokens oracle).logs.filter fun l => l.level = LogLevel.error) =
      (failuresOf (updatePrices tokens oracle).runs).map fun reason =>
        { level := LogLevel.error, message := "Failed to update token: " ++ reason } := by
  have hflat : ((tokens.enum.map fun p => updateTokenPrice p.2 (oracle p.1)).flatMap
      (fun r => r.itemLogs)).filter (fun l => decide (l.level = LogLevel.error)) = [] := by
    rw [List.filter_eq_nil_iff]
    intro a ha
    rw [List.mem_flatMap] at ha
    obtain ⟨r, hr, har⟩ := ha
    obtain ⟨p, hp, rfl⟩ := List.mem_map.mp hr
    simp [itemLogs_levels p.2 (oracle p.1) a har]
  have hmap : ∀ failures : List String,
      ((failures.map fun reason =>
          ({ level := .error, message := "Failed to update token: " ++ reason } : LogEntry)).filter
        (fun l => decide (l.level = LogLevel.error))) =
      failures.map fun reason =>
        ({ level := .error, message := "Failed to update token: " ++ reason } : LogEntry) := by
    intro failures
    rw [List.filter_eq_self]
    intro a ha
    obtain ⟨reason, hr, rfl⟩ := List.mem_map.mp ha
    simp
  simp only [updatePrices, List.filter_append, hflat]
  by_cases hfl : failuresOf (tokens.enum.map fun p => updateTokenPrice p.2 (oracle p.1)) = []
  · simp [hfl, List.filter]
  · have hlen : 0 < (failuresOf
        (tokens.enum.map fun p => updateTokenPrice p.2 (oracle p.1))).length :=
      List.length_pos.mpr hfl
    simp [hfl, hlen, List.filter, hmap]

/-- C6: per-item failures are isolated — every tick produces one outcome per
item (no short-circuit), item i's outcome is exactly its own
updateTokenPrice run (independent of every other item), the tick logs warn
lines exactly as one count line when at least one item failed; and in the
3-item run where B's publish always fails while A and C succeed, exactly 1
failure is counted, the single warning line appears, and A's and C's stored
prices update while B's stays unchanged. -/
theorem failureIsolation :
    (∀ (tokens : List Token) (oracle : Nat → ItemOracle),
        (updatePrices tokens oracle).runs.length = tokens.length) ∧
    (∀ (tokens : List Token) (oracle : Nat → ItemOracle) (i : Nat),
        (updatePrices tokens oracle).runs[i]? =
          (tokens[i]?).map fun t => updateTokenPrice t (oracle i)) ∧
    (∀ (tokens : List Token) (oracle : Nat → ItemOracle),
        ((updatePrices tokens oracle).logs.filter fun l =>
            l.level = LogLevel.warn).length =
          if failuresOf (updatePrices tokens oracle).runs = [] then 0 else 1) ∧
    (failuresOf (updatePrices [tokenA, tokenB, tokenC] isolationOracle).runs).length = 1 ∧
    ({ level := .warn, message := "1 token(s) failed to update" } : LogEntry) ∈
      (updatePrices [tokenA, tokenB, tokenC] isolationOracle).logs ∧
    finalStore [tokenA, tokenB, tokenC] isolationOracle initStore3 "A" = 11 ∧
    finalStore [tokenA, tokenB, tokenC] isolationOracle initStore3 "B" = 20 ∧
    finalStore [tokenA, tokenB, tokenC] isolationOracle initStore3 "C" = 31 := by
  refine ⟨?_, ?_, updatePrices_warnCount, by decide, by decide, by decide, by decide, by decide⟩
  · intro tokens oracle
    simp [updatePrices, List.enum_eq_enumFrom, List.enumFrom_length]
  · intro tokens oracle i
    simp [updatePrices, List.enum_eq_enumFrom, List.getElem?_enumFrom, Option.map_map,
      Function.comp]
    rfl

/-- Counterexample to C9: a persist failure after a successful publish and a
price-source failure with the same underlying reason produce identical log
output, although the first run published (and saved unsuccessfully) while
the second made no call at all — the per-item failure logging carries only
the rejection reason, with no marker of the failing step, so the
persist-after-publish failure is not logged distinctly from the other
per-item failure kinds. -/
theorem persistLoggingCounterexample :
    (updatePrices [sampleToken] fun _ => persistFailOracle).logs =
      (updatePrices [sampleToken] fun _ => sourceFailOracle).logs ∧
    (updateTokenPrice sampleToken persistFailOracle).actions =
      [ItemAction.publish (createTokenPriceUpdateMessage "t1" "TKN" 1 2 none 7),
       ItemAction.save { id := "t1", symbol := "TKN", price := 2, lastPriceUpdate := 7 }] ∧
    persistFailOracle.publishResult = .ok () ∧
    (updateTokenPrice sampleToken sourceFailOracle).actions = [] := by decide

/-- C9 amended: a per-item persist failure after a successful publish is
caught and isolated like every other per-item failure — the publish happened,
leaving the broker ahead of the store — and it is logged, but through the
same uniform per-item failure line "Failed to update token: reason" that
price-source and publish failures use, with no distinct marker. -/
theorem persistFailureLoggedUniformly (token : Token) (o : ItemOracle)
    (p : Price) (e : String) (hp : o.priceResult = .ok p) (hne : token.price ≠ p)
    (hpub : o.publishResult = .ok ()) (hsv : o.saveResult = .error e) :
    (updateTokenPrice token o).rejected? = some e ∧
    (updateTokenPrice token o).actions =
      [ItemAction.publish (createTokenPriceUpdateMessage token.id
          (if token.symbol = "" then "UNKNOWN" else token.symbol) token.price p none o.now),
       ItemAction.save { id := token.id, symbol := token.symbol, price := p,
                         lastPriceUpdate := o.now }] ∧
    ({ level := .error, message := "Failed to update token: " ++ e } : LogEntry) ∈
      (updatePrices [token] fun _ => o).logs ∧
    (∀ (tokens : List Token) (oracle : Nat → ItemOracle),
        ((updatePrices tokens oracle).logs.filter fun l => l.level = LogLevel.error) =
          (failuresOf (updatePrices tokens oracle).runs).map fun reason =>
            { level := LogLevel.error, message := "Failed to update token: " ++ reason }) := by
  have hrun : updateTokenPrice token o =
      { actions :=
          [ItemAction.publish (createTokenPriceUpdateMessage token.id
              (if token.symbol = "" then "UNKNOWN" else token.symbol) token.price p none o.now),
           ItemAction.save { id := token.id, symbol := token.symbol, price := p,
                             lastPriceUpdate := o.now }],
        constructed :=
          [createTokenPriceUpdateMessage token.id
              (if token.symbol = "" then "UNKNOWN" else token.symbol) token.price p none o.now],
        itemLogs := [], rejected? := some e } := by
    simp [updateTokenPrice, hp, hpub, hsv, hne]
  refine ⟨by rw [hrun], by rw [hrun], ?_, fun tokens oracle => updatePrices_errorLogs tokens oracle⟩
  simp [updatePrices, hrun, failuresOf]

/-- Witness for persistFailureLoggedUniformly at the save-rejecting oracle. -/
theorem persistFailureLoggedUniformly_witness :
    (updateTokenPrice sampleToken persistFailOracle).rejected? = some "boom" ∧
    ({ level := .error, message := "Failed to update token: " ++ "boom" } : LogEntry) ∈
      (updatePrices [sampleToken] fun _ => persistFailOracle).logs := by
  have h := persistFailureLoggedUniformly sampleToken persistFailOracle 2 "boom" rfl
    (by decide) rfl rfl
  exact ⟨h.1, h.2.2.1⟩

/-- No finite JavaScript number equals 10 ^ (-18): a binary64 value is
mantissa * 2 ^ exponent, and matching 1 / 10 ^ 18 would force
mantissa * 10 ^ 18 to be a power of two, which 5 divides — impossible. -/
theorem jsNumber_toRat_ne_atto (x : JsNumber) : x.toRat ≠ 1 / 10 ^ 18 := by
  intro h
  unfold JsNumber.toRat at h
  rcases le_or_lt 0 x.exponent with he | he
  · lift x.exponent to ℕ using he with n hn
    rw [zpow_natCast] at h
    have h2 : (0:ℚ) < 2 ^ n := by positivity
    have hq : (0:ℚ) < (x.mantissa : ℚ) * 2 ^ n := by rw [h]; norm_num
    have hmpos : (0:ℚ) < (x.mantissa : ℚ) := by
      by_contra hm
      push_neg at hm
      have := mul_nonpos_iff.mpr (Or.inr ⟨hm, le_of_lt h2⟩)
      linarith
    have hm1 : (1:ℚ) ≤ (x.mantissa : ℚ) := by
      have : (0:ℤ) < x.mantissa := by exact_mod_cast hmpos
      exact_mod_cast this
    have hp1 : (1:ℚ) ≤ 2 ^ n := one_le_pow₀ (by norm_num)
    have : (1:ℚ) ≤ (x.mantissa : ℚ) * 2 ^ n := by nlinarith
    rw [h] at this
    norm_num at this
  · have hk : ((-x.exponent).toNat : ℤ) = -x.exponent :=
      Int.toNat_of_nonneg (by linarith)
    have he2 : x.exponent = -((-x.exponent).toNat : ℤ) := by omega
    rw [he2, zpow_neg, zpow_natCast] at h
    have hne : ((2:ℚ) ^ (-x.exponent).toNat) ≠ 0 := by positivity
    have hq : (x.mantissa : ℚ) * 10 ^ 18 = 2 ^ (-x.exponent).toNat := by
      field_simp at h
      linarith
    have hz : x.mantissa * 10 ^ 18 = 2 ^ (-x.exponent).toNat := by exact_mod_cast hq
    have h5 : (5:ℤ) ∣ 2 ^ (-x.exponent).toNat := by
      have hd : (5:ℤ) ∣ x.mantissa * 10 ^ 18 :=
        Dvd.dvd.mul_left (dvd_pow (by norm_num) (by norm_num)) x.mantissa
      rwa [hz] at hd
    have hp5 : Prime (5:ℤ) := by norm_num
    have := hp5.dvd_of_dvd_pow h5
    norm_num at this

/-- C10 (code bug): the numeric(28,18) column stores the 18-fractional-digit
value 10 ^ (-18) exactly, but the entity's from-transformer parseFloat
returns a JavaScript binary64 number, and no such number equals 10 ^ (-18),
so the loaded Token.price differs from the stored value whatever rounding
parseFloat performs: 18 fractional digits do not round-trip through
persist/load. -/
theorem priceRoundTripFails (parse : ℚ → JsNumber) :
    loadedPrice parse ((1 : ℚ) / 10 ^ 18) ≠ (1 : ℚ) / 10 ^ 18 :=
  jsNumber_toRat_ne_atto (parse ((1 : ℚ) / 10 ^ 18))

end TokenPrice
